import Mathlib

/-!
# Compose state store (`static/js/compose_state.js`)

A shallow embedding of the compose state module of the web client: the two
module-level variables, the input controls whose live values the module reads
and writes through jQuery, the recipient-pill collaborator, and every function
of the module, followed by the properties proved about them.

Modelling conventions.

* A JavaScript string is a Lean `String`.  Every character that `trim` and
  `trimEnd` remove lies in the Basic Multilingual Plane, so reading a string as
  code points or as UTF-16 code units gives the same trimmed result.
* A function of the module that reads or writes the page is a function
  `State → result × State`; the second component is the state after the call.
* An omitted argument is `undefined`, as in JavaScript.
* The live value of a control is the string `$elem.val()` reads.  A written
  value goes through the control: a single-line input drops carriage returns
  and line feeds, the text area turns CRLF and CR into LF.
-/

set_option autoImplicit false

namespace ComposeState

/-! ## JavaScript values -/

/-- The JavaScript values the module stores, receives or returns. -/
inductive JSVal where
  | undefined
  | null
  | bool (b : Bool)
  | str (s : String)
  | arr (xs : List String)
  deriving DecidableEq, Repr, Inhabited

namespace JSVal

/-- The conversion `Boolean(v)`: only `undefined`, `null`, `false` and the
empty string are falsy among the values modelled here. -/
def truthy : JSVal → Bool
  | undefined => false
  | null => false
  | bool b => b
  | str s => decide (s ≠ "")
  | arr _ => true

/-- The comparison `v !== lit` against a string literal `lit`: strict
inequality holds unless `v` is a string equal to the literal. -/
def strictNeStr (v : JSVal) (lit : String) : Bool :=
  match v with
  | str s => decide (s ≠ lit)
  | _ => true

/-- The test `v.length === 0`.  Reading a property of `undefined` or `null`
throws (`none`); a boolean has no `length`, so the comparison is false. -/
def lengthIsZero : JSVal → Option Bool
  | undefined => none
  | null => none
  | bool _ => some false
  | str s => some (decide (s = ""))
  | arr xs => some (decide (xs = []))

end JSVal

/-! ## String trimming -/

/-- The characters removed by `String.prototype.trim`: ECMAScript `WhiteSpace`
(including every Unicode space separator) and `LineTerminator`. -/
def isJSWhiteSpace (c : Char) : Bool :=
  let n := c.toNat
  n == 0x09 || n == 0x0A || n == 0x0B || n == 0x0C || n == 0x0D || n == 0x20 ||
  n == 0xA0 || n == 0x1680 || (0x2000 ≤ n && n ≤ 0x200A) || n == 0x2028 ||
  n == 0x2029 || n == 0x202F || n == 0x205F || n == 0x3000 || n == 0xFEFF

/-- The method `s.trimStart()`. -/
def trimStart (s : String) : String := ⟨s.data.dropWhile isJSWhiteSpace⟩

/-- The method `s.trimEnd()`. -/
def trimEnd (s : String) : String := ⟨s.data.rdropWhile isJSWhiteSpace⟩

/-- The method `s.trim()`: whitespace is removed at both ends. -/
def trim (s : String) : String := trimStart (trimEnd s)

/-! ## What a control keeps of a written value -/

/-- The value without its line feeds (U+000A) and carriage returns (U+000D):
the value sanitisation of a single-line text input. -/
def stripNewlines (s : String) : String :=
  ⟨s.data.filter fun c => !(c.toNat == 10 || c.toNat == 13)⟩

/-- Newline normalisation on a list of characters; the flag tells that the
character before was a carriage return, whose line feed is then dropped. -/
def normalizeNewlinesAux : Bool → List Char → List Char
  | _, [] => []
  | afterCR, c :: rest =>
    if c.toNat == 13 then Char.ofNat 10 :: normalizeNewlinesAux true rest
    else if c.toNat == 10 && afterCR then normalizeNewlinesAux false rest
    else c :: normalizeNewlinesAux false rest

/-- The value with every CRLF pair and every remaining carriage return
replaced by a line feed: the value a text area reports. -/
def normalizeNewlines (s : String) : String := ⟨normalizeNewlinesAux false s.data⟩

/-- The length of the string in UTF-16 code units, the unit of cursor
offsets. -/
def utf16Length (s : String) : Nat :=
  (s.data.map fun c => if c.toNat < 0x10000 then 1 else 2).sum

/-- Modelled from the spec: the markup of the page is not part of the module.
The text-entry control `compose-textarea` is a multi-line text area; the
channel-name and topic controls are single-line text inputs. -/
def isTextArea (id : String) : Bool := id == "compose-textarea"

/-- The value that `$elem.val()` reads back after `$elem.val(newval)`: a text
area normalises the newlines of the written value, a single-line text input
drops them. -/
def storedValue (id : String) (newval : String) : String :=
  if isTextArea id then normalizeNewlines newval else stripNewlines newval

/-! ## The page and the collaborators -/

/-- What `compose_pm_pill.get_emails()` hands back.  The module compares the
value with the string literal `""` in `has_full_recipient` and reads its
`length` in `focus_in_empty_compose`, so both a joined address string and a
collection of addresses are admitted. -/
inductive Recipients where
  | str (s : String)
  | list (xs : List String)
  deriving DecidableEq, Repr, Inhabited

namespace Recipients

/-- The recipients as a JavaScript value. -/
def toJS : Recipients → JSVal
  | str s => JSVal.str s
  | list xs => JSVal.arr xs

/-- No address is held: the empty string or the empty collection. -/
def isEmpty : Recipients → Bool
  | str s => decide (s = "")
  | list xs => decide (xs = [])

end Recipients

/-- Modelled from the spec: the recipient-list collaborator `compose_pm_pill`,
which is imported by the module but defined elsewhere.  `emails` is the
current result of `get_emails()`. -/
structure PmPill where
  emails : Recipients
  deriving DecidableEq, Repr, Inhabited

/-- Modelled from the spec: `compose_pm_pill.get_emails()` reads the current
recipient addresses. -/
def compose_pm_pill.get_emails (p : PmPill) : Recipients := p.emails

/-- Modelled from the spec: `compose_pm_pill.set_from_emails(value)` replaces
the recipients by those the collaborator parses from `value`; the parsing
belongs to the collaborator and is the parameter `parse`. -/
def compose_pm_pill.set_from_emails (parse : String → Recipients) (value : String)
    (_p : PmPill) : PmPill :=
  ⟨parse value⟩

/-- The state the module works on: its two `let` variables and the parts of the
page and of the collaborators it observes. -/
structure State where
  /-- The variable `message_type`: `'stream'`, `'private'`, or falsy. -/
  message_type : JSVal
  /-- The variable `recipient_edited_manually`. -/
  recipient_edited_manually : JSVal
  /-- The live value of the control with a given element id, as `$("#id").val()`
  and `element.value` read it. -/
  fields : String → String
  /-- The result of `$("#compose-textarea").caret()`. -/
  caret : Nat
  /-- The value of `document.activeElement.id`. -/
  focused : String
  /-- The recipient pills. -/
  pill : PmPill

namespace State

/-- The call `$elem.val()` on the control with id `id`. -/
def val (s : State) (id : String) : String := s.fields id

/-- The call `$elem.val(newval)` on the control with id `id`: the control keeps
`storedValue id newval`, and when this changes the value of the text area the
cursor moves to the end of the new value. -/
def setVal (s : State) (id : String) (newval : String) : State :=
  { s with
    fields := fun i => if i = id then storedValue id newval else s.fields i
    caret :=
      if isTextArea id = true ∧ storedValue id newval ≠ s.fields id then
        utf16Length (storedValue id newval)
      else s.caret }

end State

/-- The state of a freshly loaded module (lines 5-6) on a given page. -/
def init (fields : String → String) (caret : Nat) (focused : String) (pill : PmPill) : State :=
  { message_type := JSVal.bool false
    recipient_edited_manually := JSVal.bool false
    fields := fields
    caret := caret
    focused := focused
    pill := pill }

/-! ## The functions of the module -/

def set_recipient_edited_manually (flag : JSVal) (s : State) : Unit × State :=
  ((), { s with recipient_edited_manually := flag })

def is_recipient_edited_manually (s : State) : JSVal × State :=
  (s.recipient_edited_manually, s)

def set_message_type (msg_type : JSVal) (s : State) : Unit × State :=
  ((), { s with message_type := msg_type })

def get_message_type (s : State) : JSVal × State :=
  (s.message_type, s)

def recipient_has_topics (s : State) : Bool × State :=
  (s.message_type.strictNeStr "stream", s)

def composing (s : State) : Bool × State :=
  (s.message_type.truthy, s)

/-- The closure built by `get_or_set(fieldname, keep_leading_whitespace,
no_trim)`, applied to `newval` (`none` is `undefined`).  An omitted flag is
`undefined`, which is falsy: `false`. -/
def get_or_set (fieldname : String) (keep_leading_whitespace no_trim : Bool)
    (newval : Option String) (s : State) : String × State :=
  let oldval := s.val fieldname
  let s1 := match newval with
    | some n => s.setVal fieldname n
    | none => s
  if no_trim then (oldval, s1)
  else if keep_leading_whitespace then (trimEnd oldval, s1)
  else (trim oldval, s1)

def stream_name (s : State) : String × State :=
  (trim (s.val "stream_message_recipient_stream"), s)

def set_stream_name (newval : Option String) (s : State) : Unit × State :=
  match newval with
  | some n => ((), s.setVal "stream_message_recipient_stream" n)
  | none => ((), s)

def topic : Option String → State → String × State :=
  get_or_set "stream_message_recipient_topic" false false

def message_content : Option String → State → String × State :=
  get_or_set "compose-textarea" true false

def untrimmed_message_content : Option String → State → String × State :=
  get_or_set "compose-textarea" true true

def cursor_at_start_of_whitespace_in_compose (s : State) : Bool × State :=
  let cursor_position := s.caret
  let (content, s1) := message_content none s
  (decide (content = "") && decide (cursor_position = 0), s1)

/-- The function `private_message_recipient(value)`; `parse` is the parsing of
the collaborator behind `set_from_emails`. -/
def private_message_recipient (parse : String → Recipients) (value : JSVal) (s : State) :
    JSVal × State :=
  match value with
  | JSVal.str v => (JSVal.undefined, { s with pill := compose_pm_pill.set_from_emails parse v s.pill })
  | _ => ((compose_pm_pill.get_emails s.pill).toJS, s)

/-- The function `focus_in_empty_compose()`; `none` stands for a thrown
`TypeError`.  The focused element is the control whose id is
`document.activeElement.id`, so `document.activeElement.value` is the live
value of that control. -/
def focus_in_empty_compose (parse : String → Recipients) (s : State) : Option Bool × State :=
  let (c, s1) := composing s
  if !c then (some false, s1) else
  let (raw, s2) := untrimmed_message_content none s1
  if raw ≠ "" then (some false, s2) else
  let focused_element_id := s2.focused
  if focused_element_id = "compose-textarea" then (some true, s2)
  else if focused_element_id = "private_message_recipient" then
    let (r, s3) := private_message_recipient parse JSVal.undefined s2
    (r.lengthIsZero, s3)
  else if focused_element_id = "stream_message_recipient_topic"
      ∨ focused_element_id = "stream_message_recipient_stream" then
    (some (decide (s2.val focused_element_id = "")), s2)
  else (some false, s2)

def has_message_content (s : State) : Bool × State :=
  let (content, s1) := message_content none s
  (decide (content ≠ ""), s1)

def has_full_recipient (parse : String → Recipients) (s : State) : Bool × State :=
  if s.message_type = JSVal.str "stream" then
    let (name, s1) := stream_name s
    if name ≠ "" then
      let (t, s2) := topic none s1
      (decide (t ≠ ""), s2)
    else (false, s1)
  else
    let (r, s1) := private_message_recipient parse JSVal.undefined s
    (r.strictNeStr "", s1)

/-! ## Reachable states -/

/-- The values of `message_type` the module is written for (line 5): falsy
`false` when nothing is being composed, `'stream'`, and `'private'`. -/
def messageTypes : List JSVal :=
  [JSVal.bool false, JSVal.str "stream", JSVal.str "private"]

/-- One thing that can happen to the state: a call of an exported function, or
a change of the page made outside the module (typing, moving the focus,
editing the pills). -/
inductive Op where
  | set_recipient_edited_manually (flag : JSVal)
  | is_recipient_edited_manually
  | set_message_type (msg_type : JSVal)
  | get_message_type
  | recipient_has_topics
  | composing
  | stream_name
  | set_stream_name (newval : Option String)
  | topic (newval : Option String)
  | message_content (newval : Option String)
  | cursor_at_start_of_whitespace_in_compose
  | focus_in_empty_compose
  | private_message_recipient (value : JSVal)
  | has_message_content
  | has_full_recipient
  | page (fields : String → String) (caret : Nat) (focused : String) (pill : PmPill)

namespace Op

/-- The state after the operation. -/
def run (parse : String → Recipients) : Op → State → State
  | set_recipient_edited_manually flag, s => (ComposeState.set_recipient_edited_manually flag s).2
  | is_recipient_edited_manually, s => (ComposeState.is_recipient_edited_manually s).2
  | set_message_type t, s => (ComposeState.set_message_type t s).2
  | get_message_type, s => (ComposeState.get_message_type s).2
  | recipient_has_topics, s => (ComposeState.recipient_has_topics s).2
  | composing, s => (ComposeState.composing s).2
  | stream_name, s => (ComposeState.stream_name s).2
  | set_stream_name n, s => (ComposeState.set_stream_name n s).2
  | topic n, s => (ComposeState.topic n s).2
  | message_content n, s => (ComposeState.message_content n s).2
  | cursor_at_start_of_whitespace_in_compose, s =>
      (ComposeState.cursor_at_start_of_whitespace_in_compose s).2
  | focus_in_empty_compose, s => (ComposeState.focus_in_empty_compose parse s).2
  | private_message_recipient v, s => (ComposeState.private_message_recipient parse v s).2
  | has_message_content, s => (ComposeState.has_message_content s).2
  | has_full_recipient, s => (ComposeState.has_full_recipient parse s).2
  | page fields caret focused pill, s =>
      { s with fields := fields, caret := caret, focused := focused, pill := pill }

/-- The operation passes `set_message_type` one of the three message types
only; every other operation is unrestricted. -/
def enumOnly : Op → Bool
  | set_message_type t => decide (t ∈ messageTypes)
  | _ => true

/-- The operation is a call of `set_recipient_edited_manually`. -/
def setsEditedFlag : Op → Bool
  | set_recipient_edited_manually _ => true
  | _ => false

/-- The operation is a read-only use of the store: a call of a getter or of a
predicate, or a call of `topic`, `message_content` or
`private_message_recipient` without argument. -/
def readOnly : Op → Bool
  | is_recipient_edited_manually => true
  | get_message_type => true
  | recipient_has_topics => true
  | composing => true
  | stream_name => true
  | topic none => true
  | message_content none => true
  | cursor_at_start_of_whitespace_in_compose => true
  | focus_in_empty_compose => true
  | private_message_recipient JSVal.undefined => true
  | has_message_content => true
  | has_full_recipient => true
  | _ => false

end Op

/-- The states reached from a freshly loaded module by operations that set the
message type to one of the three message types only. -/
inductive Reachable (parse : String → Recipients) : State → Prop where
  | init (fields : String → String) (caret : Nat) (focused : String) (pill : PmPill) :
      Reachable parse (ComposeState.init fields caret focused pill)
  | step (op : Op) (s : State) :
      Reachable parse s → op.enumOnly = true → Reachable parse (op.run parse s)

/-! ## Predicates used in the statements -/

/-- Every character of the list is whitespace. -/
def AllWhiteSpace (l : List Char) : Prop := ∀ c ∈ l, isJSWhiteSpace c = true

/-- The list does not end in a whitespace character. -/
def NoTrailingWhiteSpace (l : List Char) : Prop :=
  ∀ h : l ≠ [], isJSWhiteSpace (l.getLast h) = false

/-- The list does not start with a whitespace character. -/
def NoLeadingWhiteSpace (l : List Char) : Prop :=
  ∀ h : l ≠ [], isJSWhiteSpace (l.head h) = false

/-- The list holds neither a line feed nor a carriage return. -/
def NoLineBreak (l : List Char) : Prop := ∀ c ∈ l, c.toNat ≠ 10 ∧ c.toNat ≠ 13

/-- The list holds no carriage return. -/
def NoCarriageReturn (l : List Char) : Prop := ∀ c ∈ l, c.toNat ≠ 13

instance (l : List Char) : Decidable (NoLineBreak l) := by
  unfold NoLineBreak
  exact inferInstance

instance (l : List Char) : Decidable (NoCarriageReturn l) := by
  unfold NoCarriageReturn
  exact inferInstance

/-- The decision table of `focus_in_empty_compose` as the specification words
it. -/
def focus_in_empty_compose_table (s : State) : Bool :=
  if (composing s).1 = false ∨ s.val "compose-textarea" ≠ "" then false
  else if s.focused = "compose-textarea" then true
  else if s.focused = "private_message_recipient" then s.pill.emails.isEmpty
  else if s.focused = "stream_message_recipient_stream"
      ∨ s.focused = "stream_message_recipient_topic" then
    decide (s.val s.focused = "")
  else false

/-! ## Example pages -/

/-- A page with the three controls holding the given values. -/
def examplePage (stream topic text : String) : String → String := fun i =>
  if i = "stream_message_recipient_stream" then stream
  else if i = "stream_message_recipient_topic" then topic
  else if i = "compose-textarea" then text
  else ""

/-- A collaborator that keeps the address string as it is given. -/
def exampleParse : String → Recipients := fun v => Recipients.str v

/-- An example state with the given message type, control values, cursor
offset, focus and recipients. -/
def exampleState (t : JSVal) (stream topic text : String) (caret : Nat) (focused : String)
    (r : Recipients) : State :=
  { message_type := t
    recipient_edited_manually := JSVal.bool false
    fields := examplePage stream topic text
    caret := caret
    focused := focused
    pill := ⟨r⟩ }

/-! ## Lemmas on trimming -/

theorem rdropWhile_append_rtakeWhile (p : Char → Bool) (l : List Char) :
    l.rdropWhile p ++ l.rtakeWhile p = l := by
  have h : (l.reverse.takeWhile p ++ l.reverse.dropWhile p).reverse = l := by
    rw [List.takeWhile_append_dropWhile, List.reverse_reverse]
  rw [List.reverse_append] at h
  exact h

theorem trimEnd_append (s : String) :
    ∃ suf, s.data = (trimEnd s).data ++ suf ∧ AllWhiteSpace suf :=
  ⟨s.data.rtakeWhile isJSWhiteSpace, (rdropWhile_append_rtakeWhile _ _).symm,
    fun _ hc => List.mem_rtakeWhile_imp hc⟩

theorem trimEnd_noTrailing (s : String) : NoTrailingWhiteSpace (trimEnd s).data := by
  intro h
  have := List.rdropWhile_last_not isJSWhiteSpace s.data h
  simpa [trimEnd] using this

theorem trimStart_append (s : String) :
    ∃ pre, s.data = pre ++ (trimStart s).data ∧ AllWhiteSpace pre :=
  ⟨s.data.takeWhile isJSWhiteSpace, (List.takeWhile_append_dropWhile _ _).symm,
    fun _ hc => List.mem_takeWhile_imp hc⟩

theorem trimStart_noLeading (s : String) : NoLeadingWhiteSpace (trimStart s).data := by
  intro h
  have := List.head_dropWhile_not isJSWhiteSpace s.data h
  simpa [trimStart] using this

theorem trimStart_noTrailing (s : String) (hs : NoTrailingWhiteSpace s.data) :
    NoTrailingWhiteSpace (trimStart s).data := by
  intro h
  have hsuf : (trimStart s).data <:+ s.data := List.dropWhile_suffix _
  have hne : s.data ≠ [] := by
    intro h0
    apply h
    simp [trimStart, h0]
  rw [hsuf.getLast h]
  exact hs hne

theorem trimEnd_eq_empty_iff (s : String) : trimEnd s = "" ↔ AllWhiteSpace s.data := by
  constructor
  · intro h
    have h1 : (trimEnd s).data = [] := by rw [h]
    exact List.rdropWhile_eq_nil_iff.mp h1
  · intro h
    have h1 : s.data.rdropWhile isJSWhiteSpace = [] := List.rdropWhile_eq_nil_iff.mpr h
    show (⟨s.data.rdropWhile isJSWhiteSpace⟩ : String) = ""
    rw [h1]

/-- The method `trim` removes a whitespace-only prefix and a whitespace-only
suffix, and what is left neither starts nor ends with whitespace. -/
theorem trim_spec (s : String) :
    ∃ pre suf, s.data = pre ++ (trim s).data ++ suf ∧ AllWhiteSpace pre ∧ AllWhiteSpace suf ∧
      NoLeadingWhiteSpace (trim s).data ∧ NoTrailingWhiteSpace (trim s).data := by
  obtain ⟨suf, hsuf, hws⟩ := trimEnd_append s
  obtain ⟨pre, hpre, hwp⟩ := trimStart_append (trimEnd s)
  refine ⟨pre, suf, ?_, hwp, hws, trimStart_noLeading _, ?_⟩
  · rw [hsuf, hpre]
    rfl
  · exact trimStart_noTrailing _ (trimEnd_noTrailing s)

/-! ## Lemmas on the accessors -/

theorem get_or_set_none_state (f : String) (k n : Bool) (s : State) :
    (get_or_set f k n none s).2 = s := by
  unfold get_or_set
  by_cases hn : n = true <;> by_cases hk : k = true <;> simp [hn, hk]

theorem topic_none_fst (s : State) :
    (topic none s).1 = trim (s.val "stream_message_recipient_topic") := by
  simp [topic, get_or_set]

theorem message_content_none_fst (s : State) :
    (message_content none s).1 = trimEnd (s.val "compose-textarea") := by
  simp [message_content, get_or_set]

/-! ## Lemmas on written values -/

theorem stripNewlines_eq_self (n : String) (h : NoLineBreak n.data) : stripNewlines n = n := by
  have hf : n.data.filter (fun c => !(c.toNat == 10 || c.toNat == 13)) = n.data := by
    rw [List.filter_eq_self]
    intro c hc
    have := h c hc
    simp [this.1, this.2]
  show (⟨n.data.filter fun c => !(c.toNat == 10 || c.toNat == 13)⟩ : String) = n
  rw [hf]

theorem normalizeNewlinesAux_eq_self (l : List Char) (h : NoCarriageReturn l) :
    normalizeNewlinesAux false l = l := by
  induction l with
  | nil => rfl
  | cons c rest ih =>
    have hc : c.toNat ≠ 13 := h c (List.mem_cons_self c rest)
    have hr : NoCarriageReturn rest := fun d hd => h d (List.mem_cons_of_mem c hd)
    simp [normalizeNewlinesAux, hc, ih hr]

theorem normalizeNewlines_eq_self (n : String) (h : NoCarriageReturn n.data) :
    normalizeNewlines n = n := by
  show (⟨normalizeNewlinesAux false n.data⟩ : String) = n
  rw [normalizeNewlinesAux_eq_self n.data h]

/-! ## Properties of `has_full_recipient` -/

theorem has_full_recipient_not_stream_iff (parse : String → Recipients) (s : State)
    (h : s.message_type ≠ JSVal.str "stream") :
    (has_full_recipient parse s).1 = true
      ↔ compose_pm_pill.get_emails s.pill ≠ Recipients.str "" := by
  unfold has_full_recipient
  rw [if_neg h]
  simp only [private_message_recipient, compose_pm_pill.get_emails]
  cases hr : s.pill.emails with
  | str v => simp [Recipients.toJS, JSVal.strictNeStr]
  | list xs => simp [Recipients.toJS, JSVal.strictNeStr]

/-- C1: when the message type is not `'stream'` (direct or none) and the
recipient-list collaborator hands the recipients back as the string the module
compares with `""`, `has_full_recipient()` returns true if and only if the
recipients read from the collaborator are non-empty. -/
theorem C1_has_full_recipient_direct (parse : String → Recipients) (s : State) (v : String)
    (h : s.message_type ≠ JSVal.str "stream")
    (hv : compose_pm_pill.get_emails s.pill = Recipients.str v) :
    ((has_full_recipient parse s).1 = true
        ↔ (compose_pm_pill.get_emails s.pill).isEmpty = false)
      ∧ ((has_full_recipient parse s).1 = true ↔ v ≠ "") := by
  have key := has_full_recipient_not_stream_iff parse s h
  rw [hv] at key
  have hne : Recipients.str v ≠ Recipients.str "" ↔ v ≠ "" := by
    constructor
    · intro hn hv0
      exact hn (by rw [hv0])
    · intro hn heq
      exact hn (Recipients.str.inj heq)
  refine ⟨?_, key.trans hne⟩
  rw [hv]
  simp only [Recipients.isEmpty, decide_eq_false_iff_not]
  exact key.trans hne

/-- C1, at concrete inputs: direct type with the recipients `"a@x.com"` gives
true, and direct type with no recipients gives false. -/
theorem C1_has_full_recipient_direct_witness :
    (has_full_recipient exampleParse
        (exampleState (JSVal.str "private") "" "" "" 0 "" (Recipients.str "a@x.com"))).1 = true
      ∧ (has_full_recipient exampleParse
        (exampleState (JSVal.str "private") "" "" "" 0 "" (Recipients.str ""))).1 ≠ true :=
  ⟨(C1_has_full_recipient_direct exampleParse
      (exampleState (JSVal.str "private") "" "" "" 0 "" (Recipients.str "a@x.com")) "a@x.com"
      (by decide) rfl).2.mpr (by decide),
   fun h => (C1_has_full_recipient_direct exampleParse
      (exampleState (JSVal.str "private") "" "" "" 0 "" (Recipients.str "")) ""
      (by decide) rfl).2.mp h rfl⟩

/-- C2: when the message type is `'stream'`, `has_full_recipient()` returns
true if and only if both `stream_name()` and `topic()` are non-empty, and the
result does not depend on the recipient pills. -/
theorem C2_has_full_recipient_stream (parse : String → Recipients) (s : State)
    (h : s.message_type = JSVal.str "stream") :
    ((has_full_recipient parse s).1 = true
        ↔ (stream_name s).1 ≠ "" ∧ (topic none s).1 ≠ "")
      ∧ ∀ p : PmPill, (has_full_recipient parse { s with pill := p }).1
          = (has_full_recipient parse s).1 := by
  have key : ∀ s : State, s.message_type = JSVal.str "stream" →
      (has_full_recipient parse s).1
        = (decide ((stream_name s).1 ≠ "") && decide ((topic none s).1 ≠ "")) := by
    intro s hs
    unfold has_full_recipient
    rw [if_pos hs]
    by_cases hn : (stream_name s).1 = ""
    · simp [hn]
    · have hst : (stream_name s).2 = s := rfl
      simp [hn, hst]
  constructor
  · rw [key s h]
    simp
  · intro p
    rw [key s h, key { s with pill := p } h]
    rfl

/-- C2, at concrete inputs: channel name `"general"` with topic `"intro"` gives
true, and with topic `""` gives false. -/
theorem C2_has_full_recipient_stream_witness :
    (has_full_recipient exampleParse
        (exampleState (JSVal.str "stream") "general" "intro" "" 0 "" (Recipients.str ""))).1 = true
      ∧ (has_full_recipient exampleParse
        (exampleState (JSVal.str "stream") "general" "" "" 0 "" (Recipients.str ""))).1 ≠ true :=
  ⟨((C2_has_full_recipient_stream exampleParse
      (exampleState (JSVal.str "stream") "general" "intro" "" 0 "" (Recipients.str ""))
      rfl).1).mpr (by decide),
   fun h => (((C2_has_full_recipient_stream exampleParse
      (exampleState (JSVal.str "stream") "general" "" "" 0 "" (Recipients.str ""))
      rfl).1).mp h).2 (by decide)⟩

/-! ## Properties of `focus_in_empty_compose` -/

/-- C3: `focus_in_empty_compose()` never throws and returns the value of the
decision table: false when not composing or when the raw message content is
not empty; otherwise true in the text-entry control, the emptiness of the
recipients in the private-recipient control, the emptiness of the focused
control's raw value in the channel-name and topic controls, and false
elsewhere. -/
theorem C3_focus_in_empty_compose_table (parse : String → Recipients) (s : State) :
    (focus_in_empty_compose parse s).1 = some (focus_in_empty_compose_table s) := by
  unfold focus_in_empty_compose focus_in_empty_compose_table
  simp only [composing, untrimmed_message_content, get_or_set, private_message_recipient,
    compose_pm_pill.get_emails, State.val]
  by_cases hc : s.message_type.truthy = true
  · by_cases hraw : s.fields "compose-textarea" = ""
    · by_cases h1 : s.focused = "compose-textarea"
      · simp [hc, hraw, h1]
      · by_cases h2 : s.focused = "private_message_recipient"
        · cases hr : s.pill.emails <;>
            simp [hc, hraw, h2, hr, Recipients.toJS, JSVal.lengthIsZero, Recipients.isEmpty]
        · by_cases h3 : s.focused = "stream_message_recipient_topic"
          · simp [hc, hraw, h3]
          · by_cases h4 : s.focused = "stream_message_recipient_stream"
            · simp [hc, hraw, h4]
            · simp [hc, hraw, h1, h2, h3, h4]
    · simp [hc, hraw]
  · simp [hc]

/-- C3, at concrete inputs: not composing gives false; composing with raw
content `" "` gives false even with the focus in the text-entry control;
composing with empty content gives true in the text-entry control, true in an
empty channel-name control and false in a channel-name control holding
`"general"`. -/
theorem C3_focus_in_empty_compose_table_witness :
    (focus_in_empty_compose exampleParse
        (exampleState (JSVal.bool false) "" "" "" 0 "compose-textarea" (Recipients.str ""))).1
        = some false
      ∧ (focus_in_empty_compose exampleParse
        (exampleState (JSVal.str "stream") "" "" " " 0 "compose-textarea" (Recipients.str ""))).1
        = some false
      ∧ (focus_in_empty_compose exampleParse
        (exampleState (JSVal.str "stream") "" "" "" 0 "compose-textarea" (Recipients.str ""))).1
        = some true
      ∧ (focus_in_empty_compose exampleParse
        (exampleState (JSVal.str "stream") "" "" "" 0 "stream_message_recipient_stream"
          (Recipients.str ""))).1 = some true
      ∧ (focus_in_empty_compose exampleParse
        (exampleState (JSVal.str "stream") "general" "" "" 0 "stream_message_recipient_stream"
          (Recipients.str ""))).1 = some false :=
  ⟨(C3_focus_in_empty_compose_table _ _).trans (by decide),
   (C3_focus_in_empty_compose_table _ _).trans (by decide),
   (C3_focus_in_empty_compose_table _ _).trans (by decide),
   (C3_focus_in_empty_compose_table _ _).trans (by decide),
   (C3_focus_in_empty_compose_table _ _).trans (by decide)⟩

/-! ## Properties of the accessors `topic` and `message_content` -/

/-- C4 (as stated, refuted): with the topic control holding `"  intro  "`,
`topic()` returns `"intro"`: the leading whitespace is removed too, so the
result is not `"  intro"`. -/
theorem C4_counterexample :
    (topic none (exampleState (JSVal.str "stream") "general" "  intro  " "" 0 ""
        (Recipients.str ""))).1 = "intro"
      ∧ (topic none (exampleState (JSVal.str "stream") "general" "  intro  " "" 0 ""
        (Recipients.str ""))).1 ≠ "  intro" := by
  decide

/-- C4 (amended): `topic()` called with no argument returns the live value of
the topic control with its leading and its trailing whitespace removed: the
value is a whitespace-only prefix, the result, and a whitespace-only suffix,
and the result neither starts nor ends with whitespace; the state is
unchanged. -/
theorem C4_topic_trims_both_ends (s : State) :
    (∃ pre suf,
        (s.val "stream_message_recipient_topic").data = pre ++ (topic none s).1.data ++ suf
          ∧ AllWhiteSpace pre ∧ AllWhiteSpace suf
          ∧ NoLeadingWhiteSpace (topic none s).1.data
          ∧ NoTrailingWhiteSpace (topic none s).1.data)
      ∧ (topic none s).2 = s := by
  refine ⟨?_, get_or_set_none_state _ _ _ s⟩
  rw [topic_none_fst]
  exact trim_spec _

/-- C4 (amended), at a concrete input: the topic control holds `"  intro  "`
and `topic()` returns `"intro"`. -/
theorem C4_topic_trims_both_ends_witness :
    (topic none (exampleState (JSVal.str "stream") "general" "  intro  " "" 0 ""
        (Recipients.str ""))).1 = "intro"
      ∧ ∃ pre suf,
        ("  intro  " : String).data
            = pre ++ (topic none (exampleState (JSVal.str "stream") "general" "  intro  " "" 0 ""
                (Recipients.str ""))).1.data ++ suf
          ∧ AllWhiteSpace pre ∧ AllWhiteSpace suf :=
  ⟨by decide,
   match (C4_topic_trims_both_ends (exampleState (JSVal.str "stream") "general" "  intro  " "" 0 ""
      (Recipients.str ""))).1 with
   | ⟨pre, suf, h, hp, hs, _, _⟩ => ⟨pre, suf, h, hp, hs⟩⟩

/-- C5: `message_content()` called with no argument returns the live value of
the text-entry control with its trailing whitespace removed and its leading
whitespace kept: the result is a prefix of the value, does not end with
whitespace, and the value is the result followed by whitespace only; the state
is unchanged. -/
theorem C5_message_content_trims_end (s : State) :
    (message_content none s).1.data <+: (s.val "compose-textarea").data
      ∧ NoTrailingWhiteSpace (message_content none s).1.data
      ∧ (∃ suf, (s.val "compose-textarea").data = (message_content none s).1.data ++ suf
          ∧ AllWhiteSpace suf)
      ∧ (message_content none s).2 = s := by
  refine ⟨?_, ?_, ?_, get_or_set_none_state _ _ _ s⟩
  · rw [message_content_none_fst]
    exact List.rdropWhile_prefix isJSWhiteSpace (s.val "compose-textarea").data
  · rw [message_content_none_fst]
    exact trimEnd_noTrailing _
  · rw [message_content_none_fst]
    exact trimEnd_append _

/-- C5, at a concrete input: the text-entry control holds `"    code  "` and
`message_content()` returns `"    code"`, a prefix of the value. -/
theorem C5_message_content_trims_end_witness :
    (message_content none (exampleState (JSVal.str "stream") "" "" "    code  " 0 ""
        (Recipients.str ""))).1 = "    code"
      ∧ (message_content none (exampleState (JSVal.str "stream") "" "" "    code  " 0 ""
        (Recipients.str ""))).1.data <+: ("    code  " : String).data :=
  ⟨by decide,
   (C5_message_content_trims_end (exampleState (JSVal.str "stream") "" "" "    code  " 0 ""
      (Recipients.str ""))).1⟩

/-- C6 (as stated, refuted): the written value is not always kept verbatim.
With the topic control holding `"old"`, after `topic("a\nb")` the control holds
`"ab"` and the next `topic()` returns `"ab"`; after `message_content("a\r\nb ")`
the text area holds `"a\nb "` and the next `message_content()` returns
`"a\nb"`. -/
theorem C6_counterexample :
    ((topic (some "a\nb") (exampleState (JSVal.str "stream") "" "old" "old" 0 ""
        (Recipients.str ""))).2.val "stream_message_recipient_topic" = "ab"
      ∧ (topic (some "a\nb") (exampleState (JSVal.str "stream") "" "old" "old" 0 ""
        (Recipients.str ""))).2.val "stream_message_recipient_topic" ≠ "a\nb"
      ∧ (topic none (topic (some "a\nb") (exampleState (JSVal.str "stream") "" "old" "old" 0 ""
        (Recipients.str ""))).2).1 ≠ trim "a\nb")
      ∧ ((message_content (some "a\r\nb ") (exampleState (JSVal.str "stream") "" "old" "old" 0 ""
        (Recipients.str ""))).2.val "compose-textarea" = "a\nb "
      ∧ (message_content (some "a\r\nb ") (exampleState (JSVal.str "stream") "" "old" "old" 0 ""
        (Recipients.str ""))).2.val "compose-textarea" ≠ "a\r\nb "
      ∧ (message_content none (message_content (some "a\r\nb ") (exampleState (JSVal.str "stream")
        "" "old" "old" 0 "" (Recipients.str ""))).2).1 ≠ trimEnd "a\r\nb ") := by
  decide

/-- C6 (amended): for `topic` and for `message_content`, a call with a string
argument `n` returns what the call without argument would have returned before
it (the trimmed form of the value held before the write).  Afterwards the live
value of the control is `n` as the control keeps it: without its carriage
returns and line feeds for the topic control, with CRLF and CR turned into LF
for the text area; a following call without argument returns the trimmed form
of that value.  When `n` holds no carriage return (and, for the topic, no line
feed) the live value is `n` itself and the following call returns the trimmed
form of `n`. -/
theorem C6_accessor_write_keeps_stored_value (n : String) (s : State) :
    ((topic (some n) s).1 = (topic none s).1
        ∧ (topic (some n) s).1 = trim (s.val "stream_message_recipient_topic")
        ∧ (topic (some n) s).2.val "stream_message_recipient_topic" = stripNewlines n
        ∧ (topic none (topic (some n) s).2).1 = trim (stripNewlines n)
        ∧ (NoLineBreak n.data →
            (topic (some n) s).2.val "stream_message_recipient_topic" = n
              ∧ (topic none (topic (some n) s).2).1 = trim n))
      ∧ ((message_content (some n) s).1 = (message_content none s).1
        ∧ (message_content (some n) s).1 = trimEnd (s.val "compose-textarea")
        ∧ (message_content (some n) s).2.val "compose-textarea" = normalizeNewlines n
        ∧ (message_content none (message_content (some n) s).2).1 = trimEnd (normalizeNewlines n)
        ∧ (NoCarriageReturn n.data →
            (message_content (some n) s).2.val "compose-textarea" = n
              ∧ (message_content none (message_content (some n) s).2).1 = trimEnd n)) := by
  have ht : storedValue "stream_message_recipient_topic" n = stripNewlines n := by
    simp [storedValue, isTextArea]
  have hm : storedValue "compose-textarea" n = normalizeNewlines n := by
    simp [storedValue, isTextArea]
  have h1 : (topic (some n) s).2.val "stream_message_recipient_topic" = stripNewlines n := by
    simp [topic, get_or_set, State.val, State.setVal, ht]
  have h2 : (topic none (topic (some n) s).2).1 = trim (stripNewlines n) := by
    rw [topic_none_fst, h1]
  have h3 : (message_content (some n) s).2.val "compose-textarea" = normalizeNewlines n := by
    simp [message_content, get_or_set, State.val, State.setVal, hm]
  have h4 : (message_content none (message_content (some n) s).2).1
      = trimEnd (normalizeNewlines n) := by
    rw [message_content_none_fst, h3]
  refine ⟨⟨?_, ?_, h1, h2, ?_⟩, ?_, ?_, h3, h4, ?_⟩
  · simp [topic, get_or_set]
  · simp [topic, get_or_set]
  · intro hn
    rw [h2, h1, stripNewlines_eq_self n hn]
    exact ⟨rfl, rfl⟩
  · simp [message_content, get_or_set]
  · simp [message_content, get_or_set]
  · intro hn
    rw [h4, h3, normalizeNewlines_eq_self n hn]
    exact ⟨rfl, rfl⟩

/-- C6 (amended), at a concrete input: the topic control holds `" old "` and
`topic(" new ")` returns `"old"`, after which the control holds `" new "` and
`topic()` returns `"new"`. -/
theorem C6_accessor_write_keeps_stored_value_witness :
    (topic (some " new ") (exampleState (JSVal.str "stream") "" " old " " old " 0 ""
        (Recipients.str ""))).1 = "old"
      ∧ (topic (some " new ") (exampleState (JSVal.str "stream") "" " old " " old " 0 ""
        (Recipients.str ""))).2.val "stream_message_recipient_topic" = " new "
      ∧ (topic none (topic (some " new ") (exampleState (JSVal.str "stream") "" " old " " old " 0 ""
        (Recipients.str ""))).2).1 = "new" :=
  ⟨((C6_accessor_write_keeps_stored_value " new " (exampleState (JSVal.str "stream") "" " old "
      " old " 0 "" (Recipients.str ""))).1.2.1).trans (by decide),
   ((C6_accessor_write_keeps_stored_value " new " (exampleState (JSVal.str "stream") "" " old "
      " old " 0 "" (Recipients.str ""))).1.2.2.2.2 (by decide)).1,
   (((C6_accessor_write_keeps_stored_value " new " (exampleState (JSVal.str "stream") "" " old "
      " old " 0 "" (Recipients.str ""))).1.2.2.2.2 (by decide)).2).trans (by decide)⟩

/-! ## Properties of the content predicates -/

/-- C7: `cursor_at_start_of_whitespace_in_compose()` returns true if and only
if `message_content()` is the empty string and the cursor offset is 0. -/
theorem C7_cursor_at_start (s : State) :
    (cursor_at_start_of_whitespace_in_compose s).1 = true
      ↔ (message_content none s).1 = "" ∧ s.caret = 0 := by
  simp [cursor_at_start_of_whitespace_in_compose]

/-- C7, at concrete inputs: content `""` with offset 0 gives true, content `""`
with offset 3 gives false, content `"hi"` with offset 0 gives false. -/
theorem C7_cursor_at_start_witness :
    (cursor_at_start_of_whitespace_in_compose
        (exampleState (JSVal.str "stream") "" "" "" 0 "" (Recipients.str ""))).1 = true
      ∧ (cursor_at_start_of_whitespace_in_compose
        (exampleState (JSVal.str "stream") "" "" "" 3 "" (Recipients.str ""))).1 ≠ true
      ∧ (cursor_at_start_of_whitespace_in_compose
        (exampleState (JSVal.str "stream") "" "" "hi" 0 "" (Recipients.str ""))).1 ≠ true :=
  ⟨(C7_cursor_at_start _).mpr (by decide),
   fun h => absurd ((C7_cursor_at_start _).mp h).2 (by decide),
   fun h => absurd ((C7_cursor_at_start _).mp h).1 (by decide)⟩

/-- C8: `has_message_content()` returns false if and only if
`message_content()` is the empty string, which holds if and only if every
character of the live value is whitespace; it returns true whenever the live
value contains a character that is not whitespace. -/
theorem C8_has_message_content (s : State) :
    ((has_message_content s).1 = false ↔ (message_content none s).1 = "")
      ∧ ((message_content none s).1 = "" ↔ AllWhiteSpace (s.val "compose-textarea").data)
      ∧ ((∃ c ∈ (s.val "compose-textarea").data, isJSWhiteSpace c = false)
          → (has_message_content s).1 = true) := by
  have h1 : (has_message_content s).1 = false ↔ (message_content none s).1 = "" := by
    simp [has_message_content]
  have h2 : (message_content none s).1 = "" ↔ AllWhiteSpace (s.val "compose-textarea").data := by
    rw [message_content_none_fst]
    exact trimEnd_eq_empty_iff _
  refine ⟨h1, h2, ?_⟩
  rintro ⟨c, hc, hws⟩
  cases hb : (has_message_content s).1 with
  | true => rfl
  | false =>
    have hall := h2.mp (h1.mp hb)
    rw [hall c hc] at hws
    exact absurd hws (by decide)

/-- C8, at concrete inputs: the live value `"  x "` gives true, the live value
`"  "` gives false. -/
theorem C8_has_message_content_witness :
    (has_message_content
        (exampleState (JSVal.str "stream") "" "" "  x " 0 "" (Recipients.str ""))).1 = true
      ∧ (has_message_content
        (exampleState (JSVal.str "stream") "" "" "  " 0 "" (Recipients.str ""))).1 = false :=
  ⟨(C8_has_message_content _).2.2 ⟨'x', by decide, by decide⟩,
   (C8_has_message_content _).1.mpr (by decide)⟩

/-! ## Properties of the message type -/

theorem reachable_message_type (parse : String → Recipients) (s : State)
    (h : Reachable parse s) : s.message_type ∈ messageTypes := by
  induction h with
  | init fields caret focused pill => simp [init, messageTypes]
  | step op s _ hop ih =>
    cases op with
    | set_message_type t => exact of_decide_eq_true hop
    | set_recipient_edited_manually flag => exact ih
    | is_recipient_edited_manually => exact ih
    | get_message_type => exact ih
    | recipient_has_topics => exact ih
    | composing => exact ih
    | stream_name => exact ih
    | set_stream_name n =>
      cases n with
      | none => exact ih
      | some v => exact ih
    | topic n =>
      cases n with
      | none => exact ih
      | some v => exact ih
    | message_content n =>
      cases n with
      | none => exact ih
      | some v => exact ih
    | cursor_at_start_of_whitespace_in_compose => exact ih
    | focus_in_empty_compose =>
      have hst : (focus_in_empty_compose parse s).2.message_type = s.message_type := by
        unfold focus_in_empty_compose
        simp only [composing, untrimmed_message_content, get_or_set, private_message_recipient]
        split_ifs <;> rfl
      show (focus_in_empty_compose parse s).2.message_type ∈ messageTypes
      rw [hst]
      exact ih
    | private_message_recipient v =>
      cases v with
      | str w => exact ih
      | undefined => exact ih
      | null => exact ih
      | bool b => exact ih
      | arr xs => exact ih
    | has_message_content => exact ih
    | has_full_recipient =>
      have hst : (has_full_recipient parse s).2.message_type = s.message_type := by
        unfold has_full_recipient
        simp only [stream_name, topic, get_or_set, private_message_recipient]
        split_ifs <;> rfl
      show (has_full_recipient parse s).2.message_type ∈ messageTypes
      rw [hst]
      exact ih
    | page fields caret focused pill => exact ih

/-- C9: in every state reached by setting the message type to `false`,
`'stream'` or `'private'` only, `composing()` returns false exactly when
`get_message_type()` is `false` (no message type), and true otherwise. -/
theorem C9_composing_iff_message_type (parse : String → Recipients) (s : State)
    (h : Reachable parse s) :
    ((composing s).1 = false ↔ (get_message_type s).1 = JSVal.bool false)
      ∧ ((composing s).1 = true ↔ (get_message_type s).1 ≠ JSVal.bool false) := by
  have hm := reachable_message_type parse s h
  simp only [messageTypes, List.mem_cons, List.mem_singleton, List.not_mem_nil, or_false] at hm
  simp only [composing, get_message_type]
  rcases hm with hm | hm | hm <;> rw [hm] <;> decide

/-- C9, at concrete inputs: after `set_message_type('stream')` on a fresh
module `composing()` is true, and after `set_message_type(false)` it is
false. -/
theorem C9_composing_iff_message_type_witness :
    (composing ((Op.set_message_type (JSVal.str "stream")).run exampleParse
        (init (examplePage "" "" "") 0 "" ⟨Recipients.str ""⟩))).1 = true
      ∧ (composing ((Op.set_message_type (JSVal.bool false)).run exampleParse
        ((Op.set_message_type (JSVal.str "private")).run exampleParse
          (init (examplePage "" "" "") 0 "" ⟨Recipients.str ""⟩)))).1 = false :=
  ⟨(C9_composing_iff_message_type exampleParse _
      (Reachable.step _ _ (Reachable.init _ _ _ _) (by decide))).2.mpr (by decide),
   (C9_composing_iff_message_type exampleParse _
      (Reachable.step _ _ (Reachable.step _ _ (Reachable.init _ _ _ _) (by decide))
        (by decide))).1.mpr (by decide)⟩

/-- C10: `recipient_has_topics()` returns false if and only if
`get_message_type()` is `'stream'`; in particular it returns true when the
message type is `false` and when it is `'private'`. -/
theorem C10_recipient_has_topics (s : State) :
    ((recipient_has_topics s).1 = false ↔ (get_message_type s).1 = JSVal.str "stream")
      ∧ ((get_message_type s).1 = JSVal.bool false → (recipient_has_topics s).1 = true)
      ∧ ((get_message_type s).1 = JSVal.str "private" → (recipient_has_topics s).1 = true) := by
  simp only [recipient_has_topics, get_message_type]
  refine ⟨?_, ?_, ?_⟩
  · cases hm : s.message_type <;> simp [JSVal.strictNeStr]
  · intro hm
    rw [hm]
    rfl
  · intro hm
    rw [hm]
    decide

/-- C10, at concrete inputs: `recipient_has_topics()` is false for `'stream'`
and true for `'private'` and for `false`. -/
theorem C10_recipient_has_topics_witness :
    (recipient_has_topics
        (exampleState (JSVal.str "stream") "" "" "" 0 "" (Recipients.str ""))).1 = false
      ∧ (recipient_has_topics
        (exampleState (JSVal.str "private") "" "" "" 0 "" (Recipients.str ""))).1 = true
      ∧ (recipient_has_topics
        (exampleState (JSVal.bool false) "" "" "" 0 "" (Recipients.str ""))).1 = true :=
  ⟨(C10_recipient_has_topics _).1.mpr rfl,
   (C10_recipient_has_topics _).2.2 rfl,
   (C10_recipient_has_topics _).2.1 rfl⟩

/-! ## The state after a call -/

theorem cursor_at_start_of_whitespace_in_compose_state (s : State) :
    (cursor_at_start_of_whitespace_in_compose s).2 = s := by
  simp [cursor_at_start_of_whitespace_in_compose, message_content, get_or_set]

theorem has_message_content_state (s : State) : (has_message_content s).2 = s := by
  simp [has_message_content, message_content, get_or_set]

theorem private_message_recipient_undefined_state (parse : String → Recipients) (s : State) :
    (private_message_recipient parse JSVal.undefined s).2 = s := rfl

theorem focus_in_empty_compose_state (parse : String → Recipients) (s : State) :
    (focus_in_empty_compose parse s).2 = s := by
  unfold focus_in_empty_compose
  simp only [composing, untrimmed_message_content, get_or_set, private_message_recipient]
  split_ifs <;> rfl

theorem has_full_recipient_state (parse : String → Recipients) (s : State) :
    (has_full_recipient parse s).2 = s := by
  unfold has_full_recipient
  simp only [stream_name, topic, get_or_set, private_message_recipient]
  split_ifs <;> rfl

theorem get_or_set_edited_flag (f : String) (k n : Bool) (v : Option String) (s : State) :
    (get_or_set f k n v s).2.recipient_edited_manually = s.recipient_edited_manually := by
  unfold get_or_set
  cases v <;> by_cases hn : n = true <;> by_cases hk : k = true <;>
    simp [hn, hk, State.setVal]

/-! ## Round trips of the setters -/

/-- C11: after `set_message_type(t)`, on any prior state, `get_message_type()`
returns `t`; this holds for every value `t`, in particular for the three
message types `false`, `'stream'` and `'private'`. -/
theorem C11_set_get_message_type (t : JSVal) (s : State) :
    (get_message_type (set_message_type t s).2).1 = t := rfl

/-- C12: after `set_recipient_edited_manually(b)`, on any prior state,
`is_recipient_edited_manually()` returns `b`, for both booleans `b`. -/
theorem C12_set_get_recipient_edited_manually (b : Bool) (s : State) :
    (is_recipient_edited_manually (set_recipient_edited_manually (JSVal.bool b) s).2).1
      = JSVal.bool b := rfl

/-- C13 (as stated, refuted): `set_stream_name` does not always leave its
argument as the live value: after `set_stream_name("gen\neral")` the
channel-name control holds `"general"`, and `stream_name()` returns
`"general"`, not `trim("gen\neral")`. -/
theorem C13_counterexample :
    (set_stream_name (some "gen\neral") (exampleState (JSVal.str "stream") "" "" "" 0 ""
        (Recipients.str ""))).2.val "stream_message_recipient_stream" = "general"
      ∧ (set_stream_name (some "gen\neral") (exampleState (JSVal.str "stream") "" "" "" 0 ""
        (Recipients.str ""))).2.val "stream_message_recipient_stream" ≠ "gen\neral"
      ∧ (stream_name (set_stream_name (some "gen\neral") (exampleState (JSVal.str "stream")
        "" "" "" 0 "" (Recipients.str ""))).2).1 ≠ trim "gen\neral" := by
  decide

/-- C13 (amended): `stream_name()` returns the live value of the channel-name
control with its leading and trailing whitespace removed and leaves the state
unchanged; `set_stream_name(n)` with a string `n` makes the live value `n`
without its carriage returns and line feeds, with no trimming, so that a
following `stream_name()` returns the trimmed form of that value; when `n`
holds no carriage return and no line feed the live value is `n` itself and
`stream_name()` returns `trim(n)`; and `set_stream_name(undefined)` leaves the
state unchanged. -/
theorem C13_stream_name_keeps_stored_value (n : String) (s : State) :
    ((stream_name s).1 = trim (s.val "stream_message_recipient_stream")
        ∧ (∃ pre suf,
            (s.val "stream_message_recipient_stream").data = pre ++ (stream_name s).1.data ++ suf
              ∧ AllWhiteSpace pre ∧ AllWhiteSpace suf
              ∧ NoLeadingWhiteSpace (stream_name s).1.data
              ∧ NoTrailingWhiteSpace (stream_name s).1.data)
        ∧ (stream_name s).2 = s)
      ∧ (set_stream_name (some n) s).2.val "stream_message_recipient_stream" = stripNewlines n
      ∧ (stream_name (set_stream_name (some n) s).2).1 = trim (stripNewlines n)
      ∧ (NoLineBreak n.data →
          (set_stream_name (some n) s).2.val "stream_message_recipient_stream" = n
            ∧ (stream_name (set_stream_name (some n) s).2).1 = trim n)
      ∧ (set_stream_name none s).2 = s := by
  have hst : storedValue "stream_message_recipient_stream" n = stripNewlines n := by
    simp [storedValue, isTextArea]
  have h1 : (set_stream_name (some n) s).2.val "stream_message_recipient_stream"
      = stripNewlines n := by
    simp [set_stream_name, State.val, State.setVal, hst]
  have h2 : (stream_name (set_stream_name (some n) s).2).1 = trim (stripNewlines n) := by
    show trim ((set_stream_name (some n) s).2.val "stream_message_recipient_stream") = _
    rw [h1]
  refine ⟨⟨rfl, trim_spec _, rfl⟩, h1, h2, ?_, rfl⟩
  intro hn
  rw [h2, h1, stripNewlines_eq_self n hn]
  exact ⟨rfl, rfl⟩

/-- C13 (amended), at a concrete input: the channel-name control holds
`" general "`, so `stream_name()` returns `"general"`; after
`set_stream_name("  dev ")` the control holds `"  dev "` and `stream_name()`
returns `"dev"`. -/
theorem C13_stream_name_keeps_stored_value_witness :
    (stream_name (exampleState (JSVal.str "stream") " general " "" "" 0 ""
        (Recipients.str ""))).1 = "general"
      ∧ (set_stream_name (some "  dev ") (exampleState (JSVal.str "stream") " general " "" "" 0 ""
        (Recipients.str ""))).2.val "stream_message_recipient_stream" = "  dev "
      ∧ (stream_name (set_stream_name (some "  dev ") (exampleState (JSVal.str "stream")
        " general " "" "" 0 "" (Recipients.str ""))).2).1 = "dev" :=
  ⟨((C13_stream_name_keeps_stored_value "  dev " (exampleState (JSVal.str "stream") " general "
      "" "" 0 "" (Recipients.str ""))).1.1).trans (by decide),
   ((C13_stream_name_keeps_stored_value "  dev " (exampleState (JSVal.str "stream") " general "
      "" "" 0 "" (Recipients.str ""))).2.2.2.1 (by decide)).1,
   (((C13_stream_name_keeps_stored_value "  dev " (exampleState (JSVal.str "stream") " general "
      "" "" 0 "" (Recipients.str ""))).2.2.2.1 (by decide)).2).trans (by decide)⟩

/-! ## Frame properties -/

/-- C14: no operation other than `set_recipient_edited_manually` changes the
manual-edit flag: after any other exported function, with any argument, and
after any change of the page made outside the module,
`is_recipient_edited_manually()` returns what it returned before. -/
theorem C14_edited_flag_frame (parse : String → Recipients) (op : Op) (s : State)
    (h : op.setsEditedFlag = false) :
    (is_recipient_edited_manually (op.run parse s)).1 = (is_recipient_edited_manually s).1 := by
  show (op.run parse s).recipient_edited_manually = s.recipient_edited_manually
  cases op with
  | set_recipient_edited_manually flag => simp [Op.setsEditedFlag] at h
  | is_recipient_edited_manually => rfl
  | set_message_type t => rfl
  | get_message_type => rfl
  | recipient_has_topics => rfl
  | composing => rfl
  | stream_name => rfl
  | set_stream_name n => cases n <;> rfl
  | topic n => exact get_or_set_edited_flag _ _ _ n s
  | message_content n => exact get_or_set_edited_flag _ _ _ n s
  | cursor_at_start_of_whitespace_in_compose =>
    show (cursor_at_start_of_whitespace_in_compose s).2.recipient_edited_manually = _
    rw [cursor_at_start_of_whitespace_in_compose_state]
  | focus_in_empty_compose =>
    show (focus_in_empty_compose parse s).2.recipient_edited_manually = _
    rw [focus_in_empty_compose_state]
  | private_message_recipient v => cases v <;> rfl
  | has_message_content =>
    show (has_message_content s).2.recipient_edited_manually = _
    rw [has_message_content_state]
  | has_full_recipient =>
    show (has_full_recipient parse s).2.recipient_edited_manually = _
    rw [has_full_recipient_state]
  | page fields caret focused pill => rfl

/-- C14, at concrete inputs: with the flag set to true, `set_message_type`,
`topic("x")` and `private_message_recipient("a@x.com")` leave it true. -/
theorem C14_edited_flag_frame_witness :
    (is_recipient_edited_manually ((Op.set_message_type (JSVal.str "private")).run exampleParse
        (set_recipient_edited_manually (JSVal.bool true)
          (exampleState (JSVal.str "stream") "" "" "" 0 "" (Recipients.str ""))).2)).1
        = JSVal.bool true
      ∧ (is_recipient_edited_manually ((Op.topic (some "x")).run exampleParse
        (set_recipient_edited_manually (JSVal.bool true)
          (exampleState (JSVal.str "stream") "" "" "" 0 "" (Recipients.str ""))).2)).1
        = JSVal.bool true
      ∧ (is_recipient_edited_manually
        ((Op.private_message_recipient (JSVal.str "a@x.com")).run exampleParse
        (set_recipient_edited_manually (JSVal.bool true)
          (exampleState (JSVal.str "stream") "" "" "" 0 "" (Recipients.str ""))).2)).1
        = JSVal.bool true :=
  ⟨(C14_edited_flag_frame exampleParse (Op.set_message_type (JSVal.str "private")) _ rfl).trans rfl,
   (C14_edited_flag_frame exampleParse (Op.topic (some "x")) _ rfl).trans rfl,
   (C14_edited_flag_frame exampleParse (Op.private_message_recipient (JSVal.str "a@x.com")) _
      rfl).trans rfl⟩

/-- C15: in the state of a freshly loaded module the message type is `false`
(no message type), so `composing()` is false and `recipient_has_topics()` is
true, and `is_recipient_edited_manually()` is false. -/
theorem C15_initial_state (fields : String → String) (caret : Nat) (focused : String)
    (pill : PmPill) :
    (get_message_type (init fields caret focused pill)).1 = JSVal.bool false
      ∧ (composing (init fields caret focused pill)).1 = false
      ∧ (recipient_has_topics (init fields caret focused pill)).1 = true
      ∧ (is_recipient_edited_manually (init fields caret focused pill)).1 = JSVal.bool false :=
  ⟨rfl, rfl, rfl, rfl⟩

/-- C16: `private_message_recipient(v)` with a string `v` sets the recipients
from `v` through `set_from_emails`, changes nothing else and returns
`undefined`; called with `undefined` or any other value that is not a string
it leaves the state unchanged and returns the result of `get_emails()`. -/
theorem C16_private_message_recipient (parse : String → Recipients) (s : State) :
    (∀ v : String,
        (private_message_recipient parse (JSVal.str v) s).1 = JSVal.undefined
          ∧ (private_message_recipient parse (JSVal.str v) s).2
            = { s with pill := compose_pm_pill.set_from_emails parse v s.pill })
      ∧ (∀ value : JSVal, (∀ v : String, value ≠ JSVal.str v) →
        (private_message_recipient parse value s).1 = (compose_pm_pill.get_emails s.pill).toJS
          ∧ (private_message_recipient parse value s).2 = s) := by
  refine ⟨fun v => ⟨rfl, rfl⟩, ?_⟩
  intro value hv
  cases value with
  | str w => exact absurd rfl (hv w)
  | undefined => exact ⟨rfl, rfl⟩
  | null => exact ⟨rfl, rfl⟩
  | bool b => exact ⟨rfl, rfl⟩
  | arr xs => exact ⟨rfl, rfl⟩

/-- C16, at concrete inputs: with the recipients read as `"a@x.com"`, a call
without argument returns `"a@x.com"`; a call with `"b@x.com"` returns
`undefined`, after which a call without argument returns what the collaborator
parsed from `"b@x.com"`. -/
theorem C16_private_message_recipient_witness :
    (private_message_recipient exampleParse JSVal.undefined
        (exampleState (JSVal.str "private") "" "" "" 0 "" (Recipients.str "a@x.com"))).1
        = JSVal.str "a@x.com"
      ∧ (private_message_recipient exampleParse (JSVal.str "b@x.com")
        (exampleState (JSVal.str "private") "" "" "" 0 "" (Recipients.str "a@x.com"))).1
        = JSVal.undefined
      ∧ (private_message_recipient exampleParse JSVal.undefined
        (private_message_recipient exampleParse (JSVal.str "b@x.com")
          (exampleState (JSVal.str "private") "" "" "" 0 "" (Recipients.str "a@x.com"))).2).1
        = JSVal.str "b@x.com" :=
  ⟨((C16_private_message_recipient exampleParse _).2 JSVal.undefined
      (fun _ h => JSVal.noConfusion h)).1.trans rfl,
   ((C16_private_message_recipient exampleParse _).1 "b@x.com").1,
   ((C16_private_message_recipient exampleParse _).2 JSVal.undefined
      (fun _ h => JSVal.noConfusion h)).1.trans rfl⟩

/-! ## Consequences of an empty compose box -/

theorem focus_in_empty_compose_true (parse : String → Recipients) (s : State)
    (h : (focus_in_empty_compose parse s).1 = some true) :
    s.message_type.truthy = true ∧ s.val "compose-textarea" = "" := by
  unfold focus_in_empty_compose at h
  simp only [composing, untrimmed_message_content, get_or_set] at h
  by_cases hc : s.message_type.truthy = true
  · by_cases hraw : s.val "compose-textarea" = ""
    · exact ⟨hc, hraw⟩
    · simp [hc, hraw] at h
  · simp [hc] at h

/-- C17: whenever `focus_in_empty_compose()` returns true, `composing()` is
true, `has_message_content()` is false and the raw value of the text-entry
control is the empty string.  The converse fails: with the raw value `" "` and
the focus in the text-entry control while composing, `has_message_content()`
is false and `focus_in_empty_compose()` is false. -/
theorem C17_focus_in_empty_compose_implies (parse : String → Recipients) :
    (∀ s : State, (focus_in_empty_compose parse s).1 = some true →
        (composing s).1 = true ∧ (has_message_content s).1 = false
          ∧ s.val "compose-textarea" = "")
      ∧ (composing (exampleState (JSVal.str "stream") "" "" " " 0 "compose-textarea"
            (Recipients.str ""))).1 = true
        ∧ (has_message_content (exampleState (JSVal.str "stream") "" "" " " 0 "compose-textarea"
            (Recipients.str ""))).1 = false
        ∧ (exampleState (JSVal.str "stream") "" "" " " 0 "compose-textarea"
            (Recipients.str "")).focused = "compose-textarea"
        ∧ (focus_in_empty_compose parse (exampleState (JSVal.str "stream") "" "" " " 0
            "compose-textarea" (Recipients.str ""))).1 = some false := by
  refine ⟨?_, by decide, by decide, rfl, ?_⟩
  · intro s h
    obtain ⟨hc, hraw⟩ := focus_in_empty_compose_true parse s h
    refine ⟨hc, ?_, hraw⟩
    have hm : (message_content none s).1 = "" := by
      rw [message_content_none_fst, hraw]
      decide
    simp [has_message_content, hm]
  · have hraw : (exampleState (JSVal.str "stream") "" "" " " 0 "compose-textarea"
        (Recipients.str "")).val "compose-textarea" ≠ "" := by decide
    unfold focus_in_empty_compose
    simp only [composing, untrimmed_message_content, get_or_set]
    simp [hraw]

/-- C17, at a concrete input: composing with empty content and the focus in the
text-entry control, `focus_in_empty_compose()` is true, and so `composing()` is
true and `has_message_content()` is false. -/
theorem C17_focus_in_empty_compose_implies_witness :
    (focus_in_empty_compose exampleParse (exampleState (JSVal.str "stream") "" "" "" 0
        "compose-textarea" (Recipients.str ""))).1 = some true
      ∧ (composing (exampleState (JSVal.str "stream") "" "" "" 0 "compose-textarea"
        (Recipients.str ""))).1 = true
      ∧ (has_message_content (exampleState (JSVal.str "stream") "" "" "" 0 "compose-textarea"
        (Recipients.str ""))).1 = false :=
  ⟨by decide,
   ((C17_focus_in_empty_compose_implies exampleParse).1 _ (by decide)).1,
   ((C17_focus_in_empty_compose_implies exampleParse).1 _ (by decide)).2.1⟩

/-- C18: a read-only use of the store leaves the whole state unchanged: after a
getter, a predicate, or `topic()`, `message_content()` or
`private_message_recipient()` without argument, the message type, the
manual-edit flag, the live value of every control, the cursor, the focus and
the recipients are what they were. -/
theorem C18_read_only_frame (parse : String → Recipients) (op : Op) (s : State)
    (h : op.readOnly = true) : op.run parse s = s := by
  cases op with
  | set_recipient_edited_manually flag => simp [Op.readOnly] at h
  | is_recipient_edited_manually => rfl
  | set_message_type t => simp [Op.readOnly] at h
  | get_message_type => rfl
  | recipient_has_topics => rfl
  | composing => rfl
  | stream_name => rfl
  | set_stream_name n => simp [Op.readOnly] at h
  | topic n =>
    cases n with
    | none => exact get_or_set_none_state _ _ _ s
    | some v => simp [Op.readOnly] at h
  | message_content n =>
    cases n with
    | none => exact get_or_set_none_state _ _ _ s
    | some v => simp [Op.readOnly] at h
  | cursor_at_start_of_whitespace_in_compose =>
    exact cursor_at_start_of_whitespace_in_compose_state s
  | focus_in_empty_compose => exact focus_in_empty_compose_state parse s
  | private_message_recipient v =>
    cases v with
    | undefined => rfl
    | null => simp [Op.readOnly] at h
    | bool b => simp [Op.readOnly] at h
    | str w => simp [Op.readOnly] at h
    | arr xs => simp [Op.readOnly] at h
  | has_message_content => exact has_message_content_state s
  | has_full_recipient => exact has_full_recipient_state parse s
  | page fields caret focused pill => simp [Op.readOnly] at h

/-- C18, at concrete inputs: `focus_in_empty_compose()` and
`has_full_recipient()` leave the live value of the text-entry control, the
message type and the recipients as they were. -/
theorem C18_read_only_frame_witness :
    (Op.focus_in_empty_compose.run exampleParse (exampleState (JSVal.str "stream") "general"
        "intro" " hi " 0 "compose-textarea" (Recipients.str "a@x.com"))).val "compose-textarea"
        = " hi "
      ∧ (Op.has_full_recipient.run exampleParse (exampleState (JSVal.str "stream") "general"
        "intro" " hi " 0 "compose-textarea" (Recipients.str "a@x.com"))).message_type
        = JSVal.str "stream"
      ∧ (Op.has_full_recipient.run exampleParse (exampleState (JSVal.str "private") "general"
        "intro" " hi " 0 "compose-textarea" (Recipients.str "a@x.com"))).pill.emails
        = Recipients.str "a@x.com" :=
  ⟨(congrArg (fun t : State => t.val "compose-textarea")
      (C18_read_only_frame exampleParse Op.focus_in_empty_compose _ rfl)).trans (by decide),
   (congrArg State.message_type
      (C18_read_only_frame exampleParse Op.has_full_recipient _ rfl)).trans rfl,
   (congrArg (fun t : State => t.pill.emails)
      (C18_read_only_frame exampleParse Op.has_full_recipient _ rfl)).trans rfl⟩

end ComposeState
